import Mathlib

/-!
Verification of the Mergington High School management API (`src/app.py`).

The application keeps six in-memory Python dicts (activities, students,
courses, enrollments, attendance, payments) and exposes synchronous CRUD
handlers over them.  We embed each dict as an association list
`List (String × α)` with lookup / insert / delete operations that follow
Python dict semantics (lookup finds the entry whose key matches; `d[k] = v`
overwrites in place when the key exists and appends otherwise; `del d[k]`
removes the entry).  Each FastAPI handler becomes a pure function from the
application state to `Except HTTPException (String × AppState)`: raising
`HTTPException` is the `.error` branch (and leaves the state unchanged,
since every `raise` in the source happens before any mutation), a JSON
`{"message": ...}` reply is the `.ok` branch paired with the new state.
-/

set_option autoImplicit false

namespace MergingtonAPI

/-- Python dict lookup `d[k]` / `d.get(k)`: the value stored at key `k`. -/
def dlookup {α : Type} : List (String × α) → String → Option α
  | [], _ => none
  | (k', v) :: rest, k => if k' = k then some v else dlookup rest k

/-- Python `k in d`: key membership test. -/
def dmem {α : Type} (m : List (String × α)) (k : String) : Bool :=
  (dlookup m k).isSome

/-- Python dict assignment `d[k] = v`: overwrite the entry in place when the
key is present, append a new entry otherwise. -/
def dinsert {α : Type} : List (String × α) → String → α → List (String × α)
  | [], k, v => [(k, v)]
  | (k', v') :: rest, k, v =>
      if k' = k then (k, v) :: rest else (k', v') :: dinsert rest k v

/-- Python `del d[k]`: remove the entry stored at key `k`. -/
def derase {α : Type} : List (String × α) → String → List (String × α)
  | [], _ => []
  | (k', v') :: rest, k => if k' = k then rest else (k', v') :: derase rest k

/-- The error carried by FastAPI `HTTPException(status_code, detail)`. -/
structure HTTPException where
  status_code : Nat
  detail : String
deriving DecidableEq

/-- One activity record of the `activities` dict (`app.py` lines 25-80). -/
structure Activity where
  description : String
  schedule : String
  max_participants : Nat
  participants : List String
deriving DecidableEq

/-- Pydantic model `Student` (`app.py` lines 90-94). -/
structure Student where
  name : String
  email : String
  grade : String
  phone : Option String := none
deriving DecidableEq

/-- Pydantic model `Course` (`app.py` lines 96-101). -/
structure Course where
  name : String
  description : String
  schedule : String
  max_participants : Nat
  instructor : Option String := none
deriving DecidableEq

/-- Pydantic model `Enrollment` (`app.py` lines 103-106). -/
structure Enrollment where
  student_email : String
  course_name : String
  enrollment_date : String
deriving DecidableEq

/-- Pydantic model `AttendanceRecord` (`app.py` lines 108-112). -/
structure AttendanceRecord where
  student_email : String
  course_name : String
  date : String
  present : Bool
deriving DecidableEq

/-- Pydantic model `Payment` (`app.py` lines 114-119).  `amount` is a Python
float; the handlers never compute with it, they only store it. -/
structure Payment where
  student_email : String
  amount : Float
  course_name : String
  payment_date : String
  status : String

/-- The six module-level dicts of `app.py` (lines 25-87), gathered into one
state record. -/
structure AppState where
  activities : List (String × Activity)
  students : List (String × Student)
  courses : List (String × Course)
  enrollments : List (String × Enrollment)
  attendance : List (String × AttendanceRecord)
  payments : List (String × Payment)

/-- The seeded `activities` dict (`app.py` lines 25-80). -/
def seed_activities : List (String × Activity) :=
  [ ("Chess Club",
      { description := "Learn strategies and compete in chess tournaments",
        schedule := "Fridays, 3:30 PM - 5:00 PM",
        max_participants := 12,
        participants := ["michael@mergington.edu", "daniel@mergington.edu"] }),
    ("Programming Class",
      { description := "Learn programming fundamentals and build software projects",
        schedule := "Tuesdays and Thursdays, 3:30 PM - 4:30 PM",
        max_participants := 20,
        participants := ["emma@mergington.edu", "sophia@mergington.edu"] }),
    ("Gym Class",
      { description := "Physical education and sports activities",
        schedule := "Mondays, Wednesdays, Fridays, 2:00 PM - 3:00 PM",
        max_participants := 30,
        participants := ["john@mergington.edu", "olivia@mergington.edu"] }),
    ("Soccer Team",
      { description := "Join the school soccer team and compete in matches",
        schedule := "Tuesdays and Thursdays, 4:00 PM - 5:30 PM",
        max_participants := 22,
        participants := ["liam@mergington.edu", "noah@mergington.edu"] }),
    ("Basketball Team",
      { description := "Practice and play basketball with the school team",
        schedule := "Wednesdays and Fridays, 3:30 PM - 5:00 PM",
        max_participants := 15,
        participants := ["ava@mergington.edu", "mia@mergington.edu"] }),
    ("Art Club",
      { description := "Explore your creativity through painting and drawing",
        schedule := "Thursdays, 3:30 PM - 5:00 PM",
        max_participants := 15,
        participants := ["amelia@mergington.edu", "harper@mergington.edu"] }),
    ("Drama Club",
      { description := "Act, direct, and produce plays and performances",
        schedule := "Mondays and Wednesdays, 4:00 PM - 5:30 PM",
        max_participants := 20,
        participants := ["ella@mergington.edu", "scarlett@mergington.edu"] }),
    ("Math Club",
      { description := "Solve challenging problems and participate in math competitions",
        schedule := "Tuesdays, 3:30 PM - 4:30 PM",
        max_participants := 10,
        participants := ["james@mergington.edu", "benjamin@mergington.edu"] }),
    ("Debate Team",
      { description := "Develop public speaking and argumentation skills",
        schedule := "Fridays, 4:00 PM - 5:30 PM",
        max_participants := 12,
        participants := ["charlotte@mergington.edu", "henry@mergington.edu"] }) ]

/-- The process-start state: seeded activities, every other dict empty
(`app.py` lines 25-87). -/
def initialState : AppState :=
  { activities := seed_activities,
    students := [],
    courses := [],
    enrollments := [],
    attendance := [],
    payments := [] }

/-- Handler result: either an HTTP error, or the reply message together with
the mutated application state. -/
abbrev HandlerResult := Except HTTPException (String × AppState)

/-- `GET /activities` (`app.py` lines 127-129). -/
def get_activities (s : AppState) : List (String × Activity) :=
  s.activities

/-- `POST /activities/{activity_name}/signup` (`app.py` lines 132-151). -/
def signup_for_activity (activity_name email : String) (s : AppState) :
    HandlerResult :=
  match dlookup s.activities activity_name with
  | none => .error { status_code := 404, detail := "Activity not found" }
  | some activity =>
      if email ∈ activity.participants then
        .error { status_code := 400, detail := "Student is already signed up" }
      else
        let updated := { activity with participants := activity.participants ++ [email] }
        .ok ("Signed up " ++ email ++ " for " ++ activity_name,
          { s with activities := dinsert s.activities activity_name updated })

/-- `DELETE /activities/{activity_name}/unregister` (`app.py` lines 154-173).
Python `list.remove` deletes the first occurrence, i.e. `List.erase`. -/
def unregister_from_activity (activity_name email : String) (s : AppState) :
    HandlerResult :=
  match dlookup s.activities activity_name with
  | none => .error { status_code := 404, detail := "Activity not found" }
  | some activity =>
      if email ∉ activity.participants then
        .error { status_code := 400,
                 detail := "Student is not signed up for this activity" }
      else
        let updated := { activity with participants := activity.participants.erase email }
        .ok ("Unregistered " ++ email ++ " from " ++ activity_name,
          { s with activities := dinsert s.activities activity_name updated })

/-- `GET /admin/students` (`app.py` lines 179-182). -/
def get_all_students (s : AppState) : List (String × Student) :=
  s.students

/-- `POST /admin/students` (`app.py` lines 184-190). -/
def create_student (student : Student) (s : AppState) : HandlerResult :=
  if dmem s.students student.email then
    .error { status_code := 400, detail := "Student already exists" }
  else
    .ok ("Student " ++ student.name ++ " created successfully",
      { s with students := dinsert s.students student.email student })

/-- `PUT /admin/students/{student_email}` (`app.py` lines 192-198). -/
def update_student (student_email : String) (student : Student) (s : AppState) :
    HandlerResult :=
  if !dmem s.students student_email then
    .error { status_code := 404, detail := "Student not found" }
  else
    .ok ("Student " ++ student.name ++ " updated successfully",
      { s with students := dinsert s.students student_email student })

/-- `DELETE /admin/students/{student_email}` (`app.py` lines 200-206). -/
def delete_student (student_email : String) (s : AppState) : HandlerResult :=
  if !dmem s.students student_email then
    .error { status_code := 404, detail := "Student not found" }
  else
    .ok ("Student " ++ student_email ++ " deleted successfully",
      { s with students := derase s.students student_email })

/-- `GET /admin/courses` (`app.py` lines 209-212). -/
def get_all_courses (s : AppState) : List (String × Course) :=
  s.courses

/-- `POST /admin/courses` (`app.py` lines 214-220). -/
def create_course (course : Course) (s : AppState) : HandlerResult :=
  if dmem s.courses course.name then
    .error { status_code := 400, detail := "Course already exists" }
  else
    .ok ("Course " ++ course.name ++ " created successfully",
      { s with courses := dinsert s.courses course.name course })

/-- `PUT /admin/courses/{course_name}` (`app.py` lines 222-228). -/
def update_course (course_name : String) (course : Course) (s : AppState) :
    HandlerResult :=
  if !dmem s.courses course_name then
    .error { status_code := 404, detail := "Course not found" }
  else
    .ok ("Course " ++ course.name ++ " updated successfully",
      { s with courses := dinsert s.courses course_name course })

/-- `DELETE /admin/courses/{course_name}` (`app.py` lines 230-236). -/
def delete_course (course_name : String) (s : AppState) : HandlerResult :=
  if !dmem s.courses course_name then
    .error { status_code := 404, detail := "Course not found" }
  else
    .ok ("Course " ++ course_name ++ " deleted successfully",
      { s with courses := derase s.courses course_name })

/-- `GET /admin/enrollments` (`app.py` lines 239-242): list view of the
values. -/
def get_all_enrollments (s : AppState) : List Enrollment :=
  s.enrollments.map Prod.snd

/-- The composite key `f"{student_email}_{course_name}"` used by the
enrollment handlers (`app.py` lines 247 and 256). -/
def enrollment_key_of (student_email course_name : String) : String :=
  student_email ++ "_" ++ course_name

/-- `POST /admin/enrollments` (`app.py` lines 244-251). -/
def create_enrollment (enrollment : Enrollment) (s : AppState) : HandlerResult :=
  let enrollment_key :=
    enrollment_key_of enrollment.student_email enrollment.course_name
  if dmem s.enrollments enrollment_key then
    .error { status_code := 400, detail := "Student already enrolled in this course" }
  else
    .ok ("Student " ++ enrollment.student_email ++ " enrolled in "
           ++ enrollment.course_name,
      { s with enrollments := dinsert s.enrollments enrollment_key enrollment })

/-- `DELETE /admin/enrollments/{student_email}/{course_name}`
(`app.py` lines 253-260). -/
def delete_enrollment (student_email course_name : String) (s : AppState) :
    HandlerResult :=
  let enrollment_key := enrollment_key_of student_email course_name
  if !dmem s.enrollments enrollment_key then
    .error { status_code := 404, detail := "Enrollment not found" }
  else
    .ok ("Student " ++ student_email ++ " unenrolled from " ++ course_name,
      { s with enrollments := derase s.enrollments enrollment_key })

/-- `GET /admin/attendance` (`app.py` lines 263-266). -/
def get_all_attendance (s : AppState) : List AttendanceRecord :=
  s.attendance.map Prod.snd

/-- The composite key `f"{student_email}_{course_name}_{date}"` used by
`record_attendance` (`app.py` line 271). -/
def attendance_key_of (r : AttendanceRecord) : String :=
  r.student_email ++ "_" ++ r.course_name ++ "_" ++ r.date

/-- `POST /admin/attendance` (`app.py` lines 268-273): unconditional dict
assignment, no uniqueness check. -/
def record_attendance (attendance_record : AttendanceRecord) (s : AppState) :
    HandlerResult :=
  .ok ("Attendance recorded for " ++ attendance_record.student_email,
    { s with attendance :=
        dinsert s.attendance (attendance_key_of attendance_record) attendance_record })

/-- `GET /admin/attendance/{student_email}` (`app.py` lines 275-279). -/
def get_student_attendance (student_email : String) (s : AppState) :
    List AttendanceRecord :=
  (s.attendance.map Prod.snd).filter (fun r => r.student_email = student_email)

/-- The composite key `f"{student_email}_{course_name}_{payment_date}"` used
by `create_payment` (`app.py` line 290). -/
def payment_key_of (p : Payment) : String :=
  p.student_email ++ "_" ++ p.course_name ++ "_" ++ p.payment_date

/-- `POST /admin/payments` (`app.py` lines 287-292): unconditional dict
assignment, no uniqueness check. -/
def create_payment (payment : Payment) (s : AppState) : HandlerResult :=
  .ok ("Payment of $" ++ toString payment.amount ++ " recorded for "
         ++ payment.student_email,
    { s with payments := dinsert s.payments (payment_key_of payment) payment })

/-- `GET /admin/payments/{student_email}` (`app.py` lines 294-298). -/
def get_student_payments (student_email : String) (s : AppState) :
    List Payment :=
  (s.payments.map Prod.snd).filter (fun r => r.student_email = student_email)

/-- One API call, covering every endpoint of `app.py`. -/
inductive Op where
  | getActivities
  | signup (activity_name email : String)
  | unregister (activity_name email : String)
  | getAllStudents
  | createStudent (student : Student)
  | updateStudent (student_email : String) (student : Student)
  | deleteStudent (student_email : String)
  | getAllCourses
  | createCourse (course : Course)
  | updateCourse (course_name : String) (course : Course)
  | deleteCourse (course_name : String)
  | getAllEnrollments
  | createEnrollment (enrollment : Enrollment)
  | deleteEnrollment (student_email course_name : String)
  | getAllAttendance
  | recordAttendance (attendance_record : AttendanceRecord)
  | getStudentAttendance (student_email : String)
  | getAllPayments
  | createPayment (payment : Payment)
  | getStudentPayments (student_email : String)

/-- The state after a handler run: the mutated state on success, the old
state when the handler raised (every `raise` in `app.py` precedes any
mutation). -/
def applyResult (s : AppState) : HandlerResult → AppState
  | .ok (_, s') => s'
  | .error _ => s

/-- The state transition of one API call. Read-only endpoints leave the
state untouched. -/
def step (op : Op) (s : AppState) : AppState :=
  match op with
  | .getActivities => s
  | .signup a e => applyResult s (signup_for_activity a e s)
  | .unregister a e => applyResult s (unregister_from_activity a e s)
  | .getAllStudents => s
  | .createStudent st => applyResult s (create_student st s)
  | .updateStudent k st => applyResult s (update_student k st s)
  | .deleteStudent k => applyResult s (delete_student k s)
  | .getAllCourses => s
  | .createCourse c => applyResult s (create_course c s)
  | .updateCourse k c => applyResult s (update_course k c s)
  | .deleteCourse k => applyResult s (delete_course k s)
  | .getAllEnrollments => s
  | .createEnrollment e => applyResult s (create_enrollment e s)
  | .deleteEnrollment a b => applyResult s (delete_enrollment a b s)
  | .getAllAttendance => s
  | .recordAttendance r => applyResult s (record_attendance r s)
  | .getStudentAttendance _ => s
  | .getAllPayments => s
  | .createPayment p => applyResult s (create_payment p s)
  | .getStudentPayments _ => s

/-- Names for the six module-level dicts. -/
inductive TableId where
  | activitiesT
  | studentsT
  | coursesT
  | enrollmentsT
  | attendanceT
  | paymentsT
deriving DecidableEq

/-- The one dict an API call may touch. Read-only endpoints are assigned the
dict they read; they touch nothing. -/
def opTable (op : Op) : TableId :=
  match op with
  | .getActivities => .activitiesT
  | .signup _ _ => .activitiesT
  | .unregister _ _ => .activitiesT
  | .getAllStudents => .studentsT
  | .createStudent _ => .studentsT
  | .updateStudent _ _ => .studentsT
  | .deleteStudent _ => .studentsT
  | .getAllCourses => .coursesT
  | .createCourse _ => .coursesT
  | .updateCourse _ _ => .coursesT
  | .deleteCourse _ => .coursesT
  | .getAllEnrollments => .enrollmentsT
  | .createEnrollment _ => .enrollmentsT
  | .deleteEnrollment _ _ => .enrollmentsT
  | .getAllAttendance => .attendanceT
  | .recordAttendance _ => .attendanceT
  | .getStudentAttendance _ => .attendanceT
  | .getAllPayments => .paymentsT
  | .createPayment _ => .paymentsT
  | .getStudentPayments _ => .paymentsT

/-- The one key (in the touched dict) an API call may address. -/
def opKey (op : Op) : String :=
  match op with
  | .getActivities => ""
  | .signup a _ => a
  | .unregister a _ => a
  | .getAllStudents => ""
  | .createStudent st => st.email
  | .updateStudent k _ => k
  | .deleteStudent k => k
  | .getAllCourses => ""
  | .createCourse c => c.name
  | .updateCourse k _ => k
  | .deleteCourse k => k
  | .getAllEnrollments => ""
  | .createEnrollment e => enrollment_key_of e.student_email e.course_name
  | .deleteEnrollment a b => enrollment_key_of a b
  | .getAllAttendance => ""
  | .recordAttendance r => attendance_key_of r
  | .getStudentAttendance _ => ""
  | .getAllPayments => ""
  | .createPayment p => payment_key_of p
  | .getStudentPayments _ => ""

/-- Frame condition: going from `s` to the post-state, every dict other than
`t` is wholly unchanged, and in every dict each key other than `k` still
holds exactly the value it held before. -/
def modifiesOnly (t : TableId) (k : String) (s s' : AppState) : Prop :=
  (∀ k', k' ≠ k → dlookup s'.activities k' = dlookup s.activities k') ∧
  (t ≠ TableId.activitiesT → s'.activities = s.activities) ∧
  (∀ k', k' ≠ k → dlookup s'.students k' = dlookup s.students k') ∧
  (t ≠ TableId.studentsT → s'.students = s.students) ∧
  (∀ k', k' ≠ k → dlookup s'.courses k' = dlookup s.courses k') ∧
  (t ≠ TableId.coursesT → s'.courses = s.courses) ∧
  (∀ k', k' ≠ k → dlookup s'.enrollments k' = dlookup s.enrollments k') ∧
  (t ≠ TableId.enrollmentsT → s'.enrollments = s.enrollments) ∧
  (∀ k', k' ≠ k → dlookup s'.attendance k' = dlookup s.attendance k') ∧
  (t ≠ TableId.attendanceT → s'.attendance = s.attendance) ∧
  (∀ k', k' ≠ k → dlookup s'.payments k' = dlookup s.payments k') ∧
  (t ≠ TableId.paymentsT → s'.payments = s.payments)

/-- Invariant: no activity's participant list contains a duplicate email. -/
def participantsNodup (s : AppState) : Prop :=
  ∀ p ∈ s.activities, (Prod.snd p).participants.Nodup

instance (s : AppState) : Decidable (participantsNodup s) :=
  inferInstanceAs (Decidable (∀ p ∈ s.activities, (Prod.snd p).participants.Nodup))

theorem dlookup_dinsert_self {α : Type} (m : List (String × α)) (k : String) (v : α) :
    dlookup (dinsert m k v) k = some v := by
  induction m with
  | nil => simp [dinsert, dlookup]
  | cons hd tl ih =>
      obtain ⟨k', v'⟩ := hd
      by_cases h : k' = k
      · simp [dinsert, h, dlookup]
      · simp only [dinsert, if_neg h, dlookup, if_neg h]
        exact ih

theorem dlookup_dinsert_ne {α : Type} (m : List (String × α)) (k : String) (v : α)
    (k' : String) (hne : k' ≠ k) :
    dlookup (dinsert m k v) k' = dlookup m k' := by
  induction m with
  | nil => simp [dinsert, dlookup, Ne.symm hne]
  | cons hd tl ih =>
      obtain ⟨k₀, v₀⟩ := hd
      by_cases h : k₀ = k
      · subst h
        simp [dinsert, dlookup, Ne.symm hne]
      · simp only [dinsert, if_neg h, dlookup]
        by_cases h₂ : k₀ = k'
        · simp [h₂]
        · simp [h₂, ih]

theorem dlookup_derase_ne {α : Type} (m : List (String × α)) (k : String)
    (k' : String) (hne : k' ≠ k) :
    dlookup (derase m k) k' = dlookup m k' := by
  induction m with
  | nil => rfl
  | cons hd tl ih =>
      obtain ⟨k₀, v₀⟩ := hd
      by_cases h : k₀ = k
      · subst h
        simp [derase, dlookup, Ne.symm hne]
      · simp only [derase, if_neg h, dlookup]
        by_cases h₂ : k₀ = k'
        · simp [h₂]
        · simp [h₂, ih]

theorem dlookup_eq_none_of_not_mem {α : Type} (m : List (String × α)) (k : String)
    (h : k ∉ m.map Prod.fst) : dlookup m k = none := by
  induction m with
  | nil => rfl
  | cons hd tl ih =>
      obtain ⟨k', v'⟩ := hd
      simp only [List.map_cons, List.mem_cons] at h
      push_neg at h
      simp only [dlookup, if_neg (Ne.symm h.1)]
      exact ih h.2

theorem dlookup_derase_self {α : Type} (m : List (String × α)) (k : String)
    (hnd : (m.map Prod.fst).Nodup) : dlookup (derase m k) k = none := by
  induction m with
  | nil => rfl
  | cons hd tl ih =>
      obtain ⟨k', v'⟩ := hd
      simp only [List.map_cons, List.nodup_cons] at hnd
      by_cases h : k' = k
      · subst h
        simp only [derase, if_pos rfl]
        exact dlookup_eq_none_of_not_mem tl k' hnd.1
      · simp only [derase, if_neg h, dlookup, if_neg h]
        exact ih hnd.2

theorem mem_of_dlookup_eq_some {α : Type} {m : List (String × α)} {k : String} {v : α}
    (h : dlookup m k = some v) : (k, v) ∈ m := by
  induction m with
  | nil => simp [dlookup] at h
  | cons hd tl ih =>
      obtain ⟨k', v'⟩ := hd
      by_cases hk : k' = k
      · subst hk
        simp [dlookup] at h
        subst h
        exact List.mem_cons_self _ _
      · simp only [dlookup, if_neg hk] at h
        exact List.mem_cons_of_mem _ (ih h)

theorem mem_dinsert {α : Type} {m : List (String × α)} {k : String} {v : α}
    {x : String × α} (hx : x ∈ dinsert m k v) : x = (k, v) ∨ x ∈ m := by
  induction m with
  | nil =>
      simp only [dinsert, List.mem_singleton] at hx
      exact Or.inl hx
  | cons hd tl ih =>
      obtain ⟨k', v'⟩ := hd
      by_cases h : k' = k
      · simp only [dinsert, if_pos h, List.mem_cons] at hx
        rcases hx with h₁ | h₁
        · exact Or.inl h₁
        · exact Or.inr (List.mem_cons_of_mem _ h₁)
      · simp only [dinsert, if_neg h, List.mem_cons] at hx
        rcases hx with h₁ | h₁
        · exact Or.inr (by simp [h₁])
        · rcases ih h₁ with h₂ | h₂
          · exact Or.inl h₂
          · exact Or.inr (List.mem_cons_of_mem _ h₂)

theorem dmem_false_iff {α : Type} (m : List (String × α)) (k : String) :
    dmem m k = false ↔ dlookup m k = none := by
  unfold dmem
  cases dlookup m k <;> simp

theorem dmem_true_iff {α : Type} (m : List (String × α)) (k : String) :
    dmem m k = true ↔ ∃ v, dlookup m k = some v := by
  unfold dmem
  cases dlookup m k <;> simp

/-- C1: `signup(activity_name, email)` fails 404 "Activity not found" iff the
activity is unknown; otherwise it fails 400 "Student is already signed up"
iff the email is already in the participant list; otherwise it succeeds,
appends the email to the end of the participant list, and the email then
occurs exactly once there.  On either failure the state is unchanged. -/
theorem C1_signup_spec (s : AppState) (a e : String) :
    (signup_for_activity a e s =
        .error { status_code := 404, detail := "Activity not found" }
      ↔ dlookup s.activities a = none) ∧
    (∀ act, dlookup s.activities a = some act →
      ((signup_for_activity a e s =
          .error { status_code := 400, detail := "Student is already signed up" }
        ↔ e ∈ act.participants) ∧
       (e ∉ act.participants →
         signup_for_activity a e s =
           .ok ("Signed up " ++ e ++ " for " ++ a,
             { s with activities := dinsert s.activities a ({ act with participants := act.participants ++ [e] }) }) ∧
         (act.participants ++ [e]).count e = 1))) ∧
    (∀ err, signup_for_activity a e s = .error err → step (.signup a e) s = s) := by
  cases h : dlookup s.activities a with
  | none =>
      refine ⟨by simp [signup_for_activity, h], ?_, ?_⟩
      · intro act hact
        exact absurd hact (by simp)
      · intro err _
        simp [step, signup_for_activity, h, applyResult]
  | some act =>
      by_cases he : e ∈ act.participants
      · refine ⟨by simp [signup_for_activity, h, he], ?_, ?_⟩
        · intro act' hact'
          rw [Option.some.injEq] at hact'
          subst hact'
          refine ⟨by simp [signup_for_activity, h, he], ?_⟩
          intro hne
          exact absurd he hne
        · intro err _
          simp [step, signup_for_activity, h, he, applyResult]
      · refine ⟨by simp [signup_for_activity, h, he], ?_, ?_⟩
        · intro act' hact'
          rw [Option.some.injEq] at hact'
          subst hact'
          refine ⟨by simp [signup_for_activity, h, he], ?_⟩
          intro _
          refine ⟨by simp [signup_for_activity, h, he], ?_⟩
          simp [List.count_append, List.count_eq_zero.mpr he]
        · intro err herr
          simp [signup_for_activity, h, he] at herr

/-- Witness for C1: in the seeded state, "Chess Club" exists,
"new@x.edu" is not yet a participant, and after the successful signup the
email occurs exactly once. -/
theorem C1_signup_spec_witness :
    ∃ act, dlookup initialState.activities "Chess Club" = some act ∧
      "new@x.edu" ∉ act.participants ∧
      (act.participants ++ ["new@x.edu"]).count "new@x.edu" = 1 := by
  have h := (C1_signup_spec initialState "Chess Club" "new@x.edu").2.1 _ rfl
  exact ⟨_, rfl, by decide, (h.2 (by decide)).2⟩

/-- C2: `unregister(activity_name, email)` fails 404 iff the activity is
unknown; otherwise it fails 400 "Student is not signed up for this activity"
iff the email is absent from the participant list; otherwise it succeeds and
removes exactly one occurrence of the email, leaving every other entry and
the relative order unchanged (the new list is a sublist of the old).  On
either failure the state is unchanged. -/
theorem C2_unregister_spec (s : AppState) (a e : String) :
    (unregister_from_activity a e s =
        .error { status_code := 404, detail := "Activity not found" }
      ↔ dlookup s.activities a = none) ∧
    (∀ act, dlookup s.activities a = some act →
      ((unregister_from_activity a e s =
          .error { status_code := 400, detail := "Student is not signed up for this activity" }
        ↔ e ∉ act.participants) ∧
       (e ∈ act.participants →
         unregister_from_activity a e s =
           .ok ("Unregistered " ++ e ++ " from " ++ a,
             { s with activities := dinsert s.activities a ({ act with participants := act.participants.erase e }) }) ∧
         (act.participants.erase e).count e = act.participants.count e - 1 ∧
         (∀ x, x ≠ e → (act.participants.erase e).count x = act.participants.count x) ∧
         List.Sublist (act.participants.erase e) act.participants))) ∧
    (∀ err, unregister_from_activity a e s = .error err →
      step (.unregister a e) s = s) := by
  cases h : dlookup s.activities a with
  | none =>
      refine ⟨by simp [unregister_from_activity, h], ?_, ?_⟩
      · intro act hact
        exact absurd hact (by simp)
      · intro err _
        simp [step, unregister_from_activity, h, applyResult]
  | some act =>
      by_cases he : e ∈ act.participants
      · refine ⟨by simp [unregister_from_activity, h, he], ?_, ?_⟩
        · intro act' hact'
          rw [Option.some.injEq] at hact'
          subst hact'
          refine ⟨by simp [unregister_from_activity, h, he], ?_⟩
          intro _
          refine ⟨by simp [unregister_from_activity, h, he], ?_, ?_, ?_⟩
          · exact List.count_erase_self e act.participants
          · intro x hx
            exact List.count_erase_of_ne hx act.participants
          · exact List.erase_sublist e act.participants
        · intro err herr
          simp [unregister_from_activity, h, he] at herr
      · refine ⟨by simp [unregister_from_activity, h, he], ?_, ?_⟩
        · intro act' hact'
          rw [Option.some.injEq] at hact'
          subst hact'
          refine ⟨by simp [unregister_from_activity, h, he], ?_⟩
          intro hmem
          exact absurd hmem he
        · intro err _
          simp [step, unregister_from_activity, h, he, applyResult]

/-- Witness for C2: in the seeded state, unregistering the present
participant "michael@mergington.edu" from "Chess Club" removes exactly one
occurrence. -/
theorem C2_unregister_spec_witness :
    ∃ act, dlookup initialState.activities "Chess Club" = some act ∧
      "michael@mergington.edu" ∈ act.participants ∧
      (act.participants.erase "michael@mergington.edu").count "michael@mergington.edu" =
        act.participants.count "michael@mergington.edu" - 1 := by
  have h := (C2_unregister_spec initialState "Chess Club" "michael@mergington.edu").2.1 _ rfl
  exact ⟨_, rfl, by decide, (h.2 (by decide)).2.1⟩

/-- C3: `signup` performs no capacity check: for an existing activity and an
email not yet signed up, the call succeeds and appends the email even when
the participant list already has at least `max_participants` entries, after
which the list strictly exceeds the stored capacity. -/
theorem C3_no_capacity_check (s : AppState) (a e : String) (act : Activity)
    (hact : dlookup s.activities a = some act)
    (hnotin : e ∉ act.participants)
    (hfull : act.max_participants ≤ act.participants.length) :
    signup_for_activity a e s =
      .ok ("Signed up " ++ e ++ " for " ++ a,
        { s with activities := dinsert s.activities a ({ act with participants := act.participants ++ [e] }) }) ∧
    act.max_participants < (act.participants ++ [e]).length := by
  refine ⟨by simp [signup_for_activity, hact, hnotin], ?_⟩
  simp only [List.length_append, List.length_singleton]
  omega

/-- Witness for C3: an activity that is already at capacity
(`max_participants = 0`, no participants) still accepts a signup. -/
theorem C3_no_capacity_check_witness :
    signup_for_activity "Full Club" "a@x.edu" { activities := [("Full Club", { description := "d", schedule := "s", max_participants := 0, participants := [] })], students := [], courses := [], enrollments := [], attendance := [], payments := [] } =
      .ok ("Signed up " ++ "a@x.edu" ++ " for " ++ "Full Club",
        { activities := [("Full Club", { description := "d", schedule := "s", max_participants := 0, participants := ["a@x.edu"] })], students := [], courses := [], enrollments := [], attendance := [], payments := [] }) := by
  have h := C3_no_capacity_check
      { activities := [("Full Club", { description := "d", schedule := "s", max_participants := 0, participants := [] })], students := [], courses := [], enrollments := [], attendance := [], payments := [] }
      "Full Club" "a@x.edu"
      { description := "d", schedule := "s", max_participants := 0, participants := [] }
      rfl (by decide) (by decide)
  exact h.1

/-- C4: the enrollment composite key (string concatenation with "_") is not
injective: ("a_b", "c") and ("a", "b_c") are distinct pairs deriving the
same key, so after enrolling ("a_b", "c") the distinct enrollment
("a", "b_c") is rejected with Conflict, and deleting ("a", "b_c") deletes
the record of ("a_b", "c"). -/
theorem C4_composite_key_collision :
    (("a_b", "c") : String × String) ≠ ("a", "b_c") ∧
    enrollment_key_of "a_b" "c" = enrollment_key_of "a" "b_c" ∧
    ∃ msg s₁,
      create_enrollment { student_email := "a_b", course_name := "c", enrollment_date := "2024-01-01" } initialState = .ok (msg, s₁) ∧
      create_enrollment { student_email := "a", course_name := "b_c", enrollment_date := "2024-01-02" } s₁ =
        .error { status_code := 400, detail := "Student already enrolled in this course" } ∧
      ∃ msg₂ s₂, delete_enrollment "a" "b_c" s₁ = .ok (msg₂, s₂) ∧
        dlookup s₂.enrollments (enrollment_key_of "a_b" "c") = none := by
  refine ⟨by decide, by decide, _, _, rfl, rfl, _, _, rfl, rfl⟩

/-- C5: `record_attendance` and `create_payment` never fail: every call,
including one whose composite key is already present, succeeds and performs
a plain dict assignment, so the stored record at that key is silently
replaced by the posted one. -/
theorem C5_attendance_payment_upsert (s : AppState) (r : AttendanceRecord)
    (p : Payment) :
    record_attendance r s =
      .ok ("Attendance recorded for " ++ r.student_email,
        { s with attendance := dinsert s.attendance (attendance_key_of r) r }) ∧
    dlookup (dinsert s.attendance (attendance_key_of r) r) (attendance_key_of r) = some r ∧
    create_payment p s =
      .ok ("Payment of $" ++ toString p.amount ++ " recorded for " ++ p.student_email,
        { s with payments := dinsert s.payments (payment_key_of p) p }) ∧
    dlookup (dinsert s.payments (payment_key_of p) p) (payment_key_of p) = some p := by
  exact ⟨rfl, dlookup_dinsert_self _ _ _, rfl, dlookup_dinsert_self _ _ _⟩

/-- C6: `create_student` fails 400 "Student already exists" iff the email is
already a key of the students dict (leaving the state unchanged); otherwise
it succeeds, stores the record under its email, the record is retrievable
from `get_all_students`, and every other student entry is unchanged. -/
theorem C6_create_student_spec (s : AppState) (st : Student) :
    (create_student st s = .error { status_code := 400, detail := "Student already exists" }
      ↔ dmem s.students st.email = true) ∧
    (dmem s.students st.email = true → step (.createStudent st) s = s) ∧
    (dmem s.students st.email = false →
      create_student st s =
        .ok ("Student " ++ st.name ++ " created successfully",
          { s with students := dinsert s.students st.email st }) ∧
      dlookup (get_all_students ({ s with students := dinsert s.students st.email st } : AppState)) st.email = some st ∧
      (∀ k, k ≠ st.email → dlookup (get_all_students ({ s with students := dinsert s.students st.email st } : AppState)) k = dlookup s.students k)) := by
  cases h : dmem s.students st.email with
  | true =>
      refine ⟨by simp [create_student, h], ?_, ?_⟩
      · intro _
        simp [step, create_student, h, applyResult]
      · intro hf
        exact absurd hf (by simp)
  | false =>
      refine ⟨by simp [create_student, h], ?_, ?_⟩
      · intro hf
        exact absurd hf (by simp)
      · intro _
        refine ⟨by simp [create_student, h], ?_, ?_⟩
        · exact dlookup_dinsert_self _ _ _
        · intro k hk
          exact dlookup_dinsert_ne _ _ _ _ hk

/-- Witness for C6: creating "ann@x.edu" in the seeded state (whose students
dict is empty) succeeds and the record is retrievable. -/
theorem C6_create_student_spec_witness :
    create_student { name := "Ann", email := "ann@x.edu", grade := "9" } initialState =
      .ok ("Student " ++ "Ann" ++ " created successfully",
        { initialState with students := dinsert initialState.students "ann@x.edu" ({ name := "Ann", email := "ann@x.edu", grade := "9" }) }) ∧
    dlookup (get_all_students ({ initialState with students := dinsert initialState.students "ann@x.edu" ({ name := "Ann", email := "ann@x.edu", grade := "9" }) } : AppState)) "ann@x.edu" =
      some { name := "Ann", email := "ann@x.edu", grade := "9" } := by
  have h := (C6_create_student_spec initialState { name := "Ann", email := "ann@x.edu", grade := "9" }).2.2 (by decide)
  exact ⟨h.1, h.2.1⟩

/-- C7: `delete_course` fails 404 "Course not found" iff the name is not a
key of the courses dict (leaving the state unchanged); otherwise it
succeeds, the course is then absent from `get_all_courses`, and every other
course still holds its old value.  A Python dict always has pairwise
distinct keys; the association-list embedding states that as the `Nodup`
hypothesis. -/
theorem C7_delete_course_spec (s : AppState) (cn : String)
    (hnd : (s.courses.map Prod.fst).Nodup) :
    (delete_course cn s = .error { status_code := 404, detail := "Course not found" }
      ↔ dmem s.courses cn = false) ∧
    (dmem s.courses cn = false → step (.deleteCourse cn) s = s) ∧
    (dmem s.courses cn = true →
      delete_course cn s =
        .ok ("Course " ++ cn ++ " deleted successfully",
          { s with courses := derase s.courses cn }) ∧
      dlookup (get_all_courses ({ s with courses := derase s.courses cn } : AppState)) cn = none ∧
      (∀ k, k ≠ cn → dlookup (get_all_courses ({ s with courses := derase s.courses cn } : AppState)) k = dlookup s.courses k)) := by
  cases h : dmem s.courses cn with
  | false =>
      refine ⟨by simp [delete_course, h], ?_, ?_⟩
      · intro _
        simp [step, delete_course, h, applyResult]
      · intro hf
        exact absurd hf (by simp)
  | true =>
      refine ⟨by simp [delete_course, h], ?_, ?_⟩
      · intro hf
        exact absurd hf (by simp)
      · intro _
        refine ⟨by simp [delete_course, h], ?_, ?_⟩
        · exact dlookup_derase_self _ _ hnd
        · intro k hk
          exact dlookup_derase_ne _ _ _ hk

/-- Witness for C7: deleting the only course "Algebra" succeeds and it is
gone from the subsequent list. -/
theorem C7_delete_course_spec_witness :
    ∃ s', delete_course "Algebra" ({ initialState with courses := [("Algebra", { name := "Algebra", description := "d", schedule := "s", max_participants := 30 })] }) =
        .ok ("Course " ++ "Algebra" ++ " deleted successfully", s') ∧
      dlookup (get_all_courses s') "Algebra" = none := by
  have h := (C7_delete_course_spec ({ initialState with courses := [("Algebra", { name := "Algebra", description := "d", schedule := "s", max_participants := 30 })] }) "Algebra" (by decide)).2.2 (by decide)
  exact ⟨_, h.1, h.2.1⟩

/-- C10: `update_student` stores the body record under the path key without
re-keying: when `student_email` is a key and the body's email differs from
it, the call succeeds, the entry stays under `student_email` and holds the
new record, nothing is created or changed under the body's email, and the
stored record's email field differs from its mapping key. -/
theorem C10_update_student_no_rekey (s : AppState) (student_email : String)
    (st : Student) (hmem : dmem s.students student_email = true)
    (hne : st.email ≠ student_email) :
    update_student student_email st s =
      .ok ("Student " ++ st.name ++ " updated successfully",
        { s with students := dinsert s.students student_email st }) ∧
    dlookup (dinsert s.students student_email st) student_email = some st ∧
    dlookup (dinsert s.students student_email st) st.email = dlookup s.students st.email ∧
    ∃ stored, dlookup (dinsert s.students student_email st) student_email = some stored ∧
      stored.email ≠ student_email := by
  refine ⟨by simp [update_student, hmem], dlookup_dinsert_self _ _ _,
    dlookup_dinsert_ne _ _ _ _ hne, st, dlookup_dinsert_self _ _ _, hne⟩

/-- Witness for C10: updating "bob@x.edu" with a body whose email is
"new@x.edu" leaves the record keyed by "bob@x.edu" while its email field
says "new@x.edu". -/
theorem C10_update_student_no_rekey_witness :
    ∃ stored,
      dlookup (dinsert [("bob@x.edu", ({ name := "Bob", email := "bob@x.edu", grade := "9" } : Student))] "bob@x.edu" ({ name := "Bob", email := "new@x.edu", grade := "9" })) "bob@x.edu" = some stored ∧
      stored.email ≠ "bob@x.edu" := by
  have h := C10_update_student_no_rekey
      ({ initialState with students := [("bob@x.edu", { name := "Bob", email := "bob@x.edu", grade := "9" })] })
      "bob@x.edu" ({ name := "Bob", email := "new@x.edu", grade := "9" })
      (by decide) (by decide)
  exact h.2.2.2

theorem participantsNodup_of_activities_eq {s s' : AppState}
    (h : s'.activities = s.activities) (hs : participantsNodup s) :
    participantsNodup s' := by
  intro p hp
  exact hs p (h ▸ hp)

/-- C8: starting from the seeded state, whose participant lists are
duplicate-free, every API call preserves the property that each email
occurs at most once per activity: `signup` appends only after checking
absence, `unregister` erases from a duplicate-free list, and no other
endpoint touches the activities dict. -/
theorem C8_participants_nodup_invariant :
    participantsNodup initialState ∧
    ∀ (op : Op) (s : AppState), participantsNodup s → participantsNodup (step op s) := by
  constructor
  · decide
  · intro op s hs
    cases op with
    | getActivities => exact hs
    | signup a e =>
        cases h : dlookup s.activities a with
        | none =>
            have hstep : step (.signup a e) s = s := by
              simp [step, signup_for_activity, h, applyResult]
            rw [hstep]
            exact hs
        | some act =>
            by_cases he : e ∈ act.participants
            · have hstep : step (.signup a e) s = s := by
                simp [step, signup_for_activity, h, he, applyResult]
              rw [hstep]
              exact hs
            · have hstep : step (.signup a e) s =
                  { s with activities := dinsert s.activities a ({ act with participants := act.participants ++ [e] }) } := by
                simp [step, signup_for_activity, h, he, applyResult]
              rw [hstep]
              intro p hp
              rcases mem_dinsert hp with h₁ | h₁
              · have hact : act.participants.Nodup := hs _ (mem_of_dlookup_eq_some h)
                rw [h₁]
                simp [List.nodup_append, hact, he]
              · exact hs p h₁
    | unregister a e =>
        cases h : dlookup s.activities a with
        | none =>
            have hstep : step (.unregister a e) s = s := by
              simp [step, unregister_from_activity, h, applyResult]
            rw [hstep]
            exact hs
        | some act =>
            by_cases he : e ∈ act.participants
            · have hstep : step (.unregister a e) s =
                  { s with activities := dinsert s.activities a ({ act with participants := act.participants.erase e }) } := by
                simp [step, unregister_from_activity, h, he, applyResult]
              rw [hstep]
              intro p hp
              rcases mem_dinsert hp with h₁ | h₁
              · have hact : act.participants.Nodup := hs _ (mem_of_dlookup_eq_some h)
                rw [h₁]
                exact hact.erase e
              · exact hs p h₁
            · have hstep : step (.unregister a e) s = s := by
                simp [step, unregister_from_activity, h, he, applyResult]
              rw [hstep]
              exact hs
    | getAllStudents => exact hs
    | createStudent st =>
        refine participantsNodup_of_activities_eq ?_ hs
        simp only [step]
        unfold create_student
        split <;> rfl
    | updateStudent k st =>
        refine participantsNodup_of_activities_eq ?_ hs
        simp only [step]
        unfold update_student
        split <;> rfl
    | deleteStudent k =>
        refine participantsNodup_of_activities_eq ?_ hs
        simp only [step]
        unfold delete_student
        split <;> rfl
    | getAllCourses => exact hs
    | createCourse c =>
        refine participantsNodup_of_activities_eq ?_ hs
        simp only [step]
        unfold create_course
        split <;> rfl
    | updateCourse k c =>
        refine participantsNodup_of_activities_eq ?_ hs
        simp only [step]
        unfold update_course
        split <;> rfl
    | deleteCourse k =>
        refine participantsNodup_of_activities_eq ?_ hs
        simp only [step]
        unfold delete_course
        split <;> rfl
    | getAllEnrollments => exact hs
    | createEnrollment e =>
        refine participantsNodup_of_activities_eq ?_ hs
        cases h : dmem s.enrollments (enrollment_key_of e.student_email e.course_name) with
        | true => simp [step, create_enrollment, h, applyResult]
        | false => simp [step, create_enrollment, h, applyResult]
    | deleteEnrollment a b =>
        refine participantsNodup_of_activities_eq ?_ hs
        cases h : dmem s.enrollments (enrollment_key_of a b) with
        | true => simp [step, delete_enrollment, h, applyResult]
        | false => simp [step, delete_enrollment, h, applyResult]
    | getAllAttendance => exact hs
    | recordAttendance r => exact participantsNodup_of_activities_eq rfl hs
    | getStudentAttendance k => exact hs
    | getAllPayments => exact hs
    | createPayment p => exact participantsNodup_of_activities_eq rfl hs
    | getStudentPayments k => exact hs

/-- Witness for C8: the invariant holds in the seeded state and is kept by a
concrete signup. -/
theorem C8_participants_nodup_invariant_witness :
    participantsNodup (step (.signup "Chess Club" "new@x.edu") initialState) :=
  C8_participants_nodup_invariant.2 (.signup "Chess Club" "new@x.edu")
    initialState (by decide)

theorem modifiesOnly_refl (t : TableId) (k : String) (s : AppState) :
    modifiesOnly t k s s :=
  ⟨fun _ _ => rfl, fun _ => rfl, fun _ _ => rfl, fun _ => rfl, fun _ _ => rfl,
   fun _ => rfl, fun _ _ => rfl, fun _ => rfl, fun _ _ => rfl, fun _ => rfl,
   fun _ _ => rfl, fun _ => rfl⟩

theorem modifiesOnly_activities_dinsert (s : AppState) (k : String) (v : Activity) :
    modifiesOnly TableId.activitiesT k s ({ s with activities := dinsert s.activities k v }) :=
  ⟨fun _ hk => dlookup_dinsert_ne _ _ _ _ hk, fun h => absurd rfl h,
   fun _ _ => rfl, fun _ => rfl, fun _ _ => rfl, fun _ => rfl, fun _ _ => rfl,
   fun _ => rfl, fun _ _ => rfl, fun _ => rfl, fun _ _ => rfl, fun _ => rfl⟩

theorem modifiesOnly_students_dinsert (s : AppState) (k : String) (v : Student) :
    modifiesOnly TableId.studentsT k s ({ s with students := dinsert s.students k v }) :=
  ⟨fun _ _ => rfl, fun _ => rfl, fun _ hk => dlookup_dinsert_ne _ _ _ _ hk,
   fun h => absurd rfl h, fun _ _ => rfl, fun _ => rfl, fun _ _ => rfl,
   fun _ => rfl, fun _ _ => rfl, fun _ => rfl, fun _ _ => rfl, fun _ => rfl⟩

theorem modifiesOnly_students_derase (s : AppState) (k : String) :
    modifiesOnly TableId.studentsT k s ({ s with students := derase s.students k }) :=
  ⟨fun _ _ => rfl, fun _ => rfl, fun _ hk => dlookup_derase_ne _ _ _ hk,
   fun h => absurd rfl h, fun _ _ => rfl, fun _ => rfl, fun _ _ => rfl,
   fun _ => rfl, fun _ _ => rfl, fun _ => rfl, fun _ _ => rfl, fun _ => rfl⟩

theorem modifiesOnly_courses_dinsert (s : AppState) (k : String) (v : Course) :
    modifiesOnly TableId.coursesT k s ({ s with courses := dinsert s.courses k v }) :=
  ⟨fun _ _ => rfl, fun _ => rfl, fun _ _ => rfl, fun _ => rfl,
   fun _ hk => dlookup_dinsert_ne _ _ _ _ hk, fun h => absurd rfl h,
   fun _ _ => rfl, fun _ => rfl, fun _ _ => rfl, fun _ => rfl, fun _ _ => rfl,
   fun _ => rfl⟩

theorem modifiesOnly_courses_derase (s : AppState) (k : String) :
    modifiesOnly TableId.coursesT k s ({ s with courses := derase s.courses k }) :=
  ⟨fun _ _ => rfl, fun _ => rfl, fun _ _ => rfl, fun _ => rfl,
   fun _ hk => dlookup_derase_ne _ _ _ hk, fun h => absurd rfl h,
   fun _ _ => rfl, fun _ => rfl, fun _ _ => rfl, fun _ => rfl, fun _ _ => rfl,
   fun _ => rfl⟩

theorem modifiesOnly_enrollments_dinsert (s : AppState) (k : String) (v : Enrollment) :
    modifiesOnly TableId.enrollmentsT k s ({ s with enrollments := dinsert s.enrollments k v }) :=
  ⟨fun _ _ => rfl, fun _ => rfl, fun _ _ => rfl, fun _ => rfl, fun _ _ => rfl,
   fun _ => rfl, fun _ hk => dlookup_dinsert_ne _ _ _ _ hk, fun h => absurd rfl h,
   fun _ _ => rfl, fun _ => rfl, fun _ _ => rfl, fun _ => rfl⟩

theorem modifiesOnly_enrollments_derase (s : AppState) (k : String) :
    modifiesOnly TableId.enrollmentsT k s ({ s with enrollments := derase s.enrollments k }) :=
  ⟨fun _ _ => rfl, fun _ => rfl, fun _ _ => rfl, fun _ => rfl, fun _ _ => rfl,
   fun _ => rfl, fun _ hk => dlookup_derase_ne _ _ _ hk, fun h => absurd rfl h,
   fun _ _ => rfl, fun _ => rfl, fun _ _ => rfl, fun _ => rfl⟩

theorem modifiesOnly_attendance_dinsert (s : AppState) (k : String) (v : AttendanceRecord) :
    modifiesOnly TableId.attendanceT k s ({ s with attendance := dinsert s.attendance k v }) :=
  ⟨fun _ _ => rfl, fun _ => rfl, fun _ _ => rfl, fun _ => rfl, fun _ _ => rfl,
   fun _ => rfl, fun _ _ => rfl, fun _ => rfl,
   fun _ hk => dlookup_dinsert_ne _ _ _ _ hk, fun h => absurd rfl h,
   fun _ _ => rfl, fun _ => rfl⟩

theorem modifiesOnly_payments_dinsert (s : AppState) (k : String) (v : Payment) :
    modifiesOnly TableId.paymentsT k s ({ s with payments := dinsert s.payments k v }) :=
  ⟨fun _ _ => rfl, fun _ => rfl, fun _ _ => rfl, fun _ => rfl, fun _ _ => rfl,
   fun _ => rfl, fun _ _ => rfl, fun _ => rfl, fun _ _ => rfl, fun _ => rfl,
   fun _ hk => dlookup_dinsert_ne _ _ _ _ hk, fun h => absurd rfl h⟩

/-- C9: every API call touches at most one of the six dicts, and within it
at most the entry addressed by the call's key: whether the call succeeds or
fails, every other dict and every other key of the touched dict hold exactly
the values they held before. -/
theorem C9_single_key_frame (op : Op) (s : AppState) :
    modifiesOnly (opTable op) (opKey op) s (step op s) := by
  cases op with
  | getActivities => exact modifiesOnly_refl _ _ _
  | signup a e =>
      cases h : dlookup s.activities a with
      | none =>
          have hstep : step (.signup a e) s = s := by
            simp [step, signup_for_activity, h, applyResult]
          rw [hstep]
          exact modifiesOnly_refl _ _ _
      | some act =>
          by_cases he : e ∈ act.participants
          · have hstep : step (.signup a e) s = s := by
              simp [step, signup_for_activity, h, he, applyResult]
            rw [hstep]
            exact modifiesOnly_refl _ _ _
          · have hstep : step (.signup a e) s =
                { s with activities := dinsert s.activities a ({ act with participants := act.participants ++ [e] }) } := by
              simp [step, signup_for_activity, h, he, applyResult]
            rw [hstep]
            exact modifiesOnly_activities_dinsert _ _ _
  | unregister a e =>
      cases h : dlookup s.activities a with
      | none =>
          have hstep : step (.unregister a e) s = s := by
            simp [step, unregister_from_activity, h, applyResult]
          rw [hstep]
          exact modifiesOnly_refl _ _ _
      | some act =>
          by_cases he : e ∈ act.participants
          · have hstep : step (.unregister a e) s =
                { s with activities := dinsert s.activities a ({ act with participants := act.participants.erase e }) } := by
              simp [step, unregister_from_activity, h, he, applyResult]
            rw [hstep]
            exact modifiesOnly_activities_dinsert _ _ _
          · have hstep : step (.unregister a e) s = s := by
              simp [step, unregister_from_activity, h, he, applyResult]
            rw [hstep]
            exact modifiesOnly_refl _ _ _
  | getAllStudents => exact modifiesOnly_refl _ _ _
  | createStudent st =>
      cases h : dmem s.students st.email with
      | true =>
          have hstep : step (.createStudent st) s = s := by
            simp [step, create_student, h, applyResult]
          rw [hstep]
          exact modifiesOnly_refl _ _ _
      | false =>
          have hstep : step (.createStudent st) s =
              { s with students := dinsert s.students st.email st } := by
            simp [step, create_student, h, applyResult]
          rw [hstep]
          exact modifiesOnly_students_dinsert _ _ _
  | updateStudent k st =>
      cases h : dmem s.students k with
      | false =>
          have hstep : step (.updateStudent k st) s = s := by
            simp [step, update_student, h, applyResult]
          rw [hstep]
          exact modifiesOnly_refl _ _ _
      | true =>
          have hstep : step (.updateStudent k st) s =
              { s with students := dinsert s.students k st } := by
            simp [step, update_student, h, applyResult]
          rw [hstep]
          exact modifiesOnly_students_dinsert _ _ _
  | deleteStudent k =>
      cases h : dmem s.students k with
      | false =>
          have hstep : step (.deleteStudent k) s = s := by
            simp [step, delete_student, h, applyResult]
          rw [hstep]
          exact modifiesOnly_refl _ _ _
      | true =>
          have hstep : step (.deleteStudent k) s =
              { s with students := derase s.students k } := by
            simp [step, delete_student, h, applyResult]
          rw [hstep]
          exact modifiesOnly_students_derase _ _
  | getAllCourses => exact modifiesOnly_refl _ _ _
  | createCourse c =>
      cases h : dmem s.courses c.name with
      | true =>
          have hstep : step (.createCourse c) s = s := by
            simp [step, create_course, h, applyResult]
          rw [hstep]
          exact modifiesOnly_refl _ _ _
      | false =>
          have hstep : step (.createCourse c) s =
              { s with courses := dinsert s.courses c.name c } := by
            simp [step, create_course, h, applyResult]
          rw [hstep]
          exact modifiesOnly_courses_dinsert _ _ _
  | updateCourse k c =>
      cases h : dmem s.courses k with
      | false =>
          have hstep : step (.updateCourse k c) s = s := by
            simp [step, update_course, h, applyResult]
          rw [hstep]
          exact modifiesOnly_refl _ _ _
      | true =>
          have hstep : step (.updateCourse k c) s =
              { s with courses := dinsert s.courses k c } := by
            simp [step, update_course, h, applyResult]
          rw [hstep]
          exact modifiesOnly_courses_dinsert _ _ _
  | deleteCourse k =>
      cases h : dmem s.courses k with
      | false =>
          have hstep : step (.deleteCourse k) s = s := by
            simp [step, delete_course, h, applyResult]
          rw [hstep]
          exact modifiesOnly_refl _ _ _
      | true =>
          have hstep : step (.deleteCourse k) s =
              { s with courses := derase s.courses k } := by
            simp [step, delete_course, h, applyResult]
          rw [hstep]
          exact modifiesOnly_courses_derase _ _
  | getAllEnrollments => exact modifiesOnly_refl _ _ _
  | createEnrollment e =>
      cases h : dmem s.enrollments (enrollment_key_of e.student_email e.course_name) with
      | true =>
          have hstep : step (.createEnrollment e) s = s := by
            simp [step, create_enrollment, h, applyResult]
          rw [hstep]
          exact modifiesOnly_refl _ _ _
      | false =>
          have hstep : step (.createEnrollment e) s =
              { s with enrollments := dinsert s.enrollments (enrollment_key_of e.student_email e.course_name) e } := by
            simp [step, create_enrollment, h, applyResult]
          rw [hstep]
          exact modifiesOnly_enrollments_dinsert _ _ _
  | deleteEnrollment a b =>
      cases h : dmem s.enrollments (enrollment_key_of a b) with
      | false =>
          have hstep : step (.deleteEnrollment a b) s = s := by
            simp [step, delete_enrollment, h, applyResult]
          rw [hstep]
          exact modifiesOnly_refl _ _ _
      | true =>
          have hstep : step (.deleteEnrollment a b) s =
              { s with enrollments := derase s.enrollments (enrollment_key_of a b) } := by
            simp [step, delete_enrollment, h, applyResult]
          rw [hstep]
          exact modifiesOnly_enrollments_derase _ _
  | getAllAttendance => exact modifiesOnly_refl _ _ _
  | recordAttendance r => exact modifiesOnly_attendance_dinsert _ _ _
  | getStudentAttendance k => exact modifiesOnly_refl _ _ _
  | getAllPayments => exact modifiesOnly_refl _ _ _
  | createPayment p => exact modifiesOnly_payments_dinsert _ _ _
  | getStudentPayments k => exact modifiesOnly_refl _ _ _

end MergingtonAPI
